import Mathlib

/-!
Verification of the KaMela Finance reconciliation engine.

The definitions below are a shallow embedding of the persistent state and
the operations of `src/kamela_finance.py` (SQLite tables `transactions`,
`debts`, `repayments`, `contacts` and the dialog `save` handlers that are
the only code mutating them).  SQLite `REAL` amounts are modelled as `Int`,
dates (`TEXT 'YYYY-MM-DD'`, compared lexicographically, which coincides
with chronological order) as `Int` day numbers, and a nullable `due_date`
as `Option Int` where `none` stands for SQL `NULL` / the empty string.
-/

namespace Kamela

/-- Transaction `type` column: 'revenu' or 'depense'. -/
inductive TxnKind
  | revenu
  | depense
deriving DecidableEq, Repr

/-- Debt `type` column: 'dette' (I owe) or 'pret' (owed to me). -/
inductive DebtKind
  | dette
  | pret
deriving DecidableEq, Repr

/-- Debt `status` column: 'actif', 'remboursé' or 'en_retard' (the schema
comment lists all three; only the first two are ever written). -/
inductive DebtStatus
  | actif
  | rembourse
  | enRetard
deriving DecidableEq, Repr

/-- A row of the `transactions` table. -/
structure Txn where
  id : Nat
  kind : TxnKind
  category : String
  amount : Int
  description : String
  date : Int
deriving DecidableEq, Repr

/-- A row of the `debts` table. -/
structure Debt where
  id : Nat
  kind : DebtKind
  person_name : String
  phone : String
  amount : Int
  amount_paid : Int
  interest_rate : Int
  start_date : Int
  due_date : Option Int
  status : DebtStatus
  description : String
deriving DecidableEq, Repr

/-- A row of the `repayments` table. -/
structure Repayment where
  debt_id : Nat
  amount : Int
  date : Int
  notes : String
deriving DecidableEq, Repr

/-- A row of the `contacts` table (fields used by the engine). -/
structure Contact where
  name : String
  phone : String
  ctype : String
  notes : String
deriving DecidableEq, Repr

/-- The whole persistent store (`kamela_finance.db`), plus the
AUTOINCREMENT counters of the `transactions` and `debts` tables. -/
structure DB where
  transactions : List Txn
  debts : List Debt
  repayments : List Repayment
  contacts : List Contact
  nextTxnId : Nat
  nextDebtId : Nat
deriving DecidableEq, Repr

/-- The freshly initialised database (`init_database`): four empty tables. -/
def initDB : DB := ⟨[], [], [], [], 1, 1⟩

/-- Embedding of `add_transaction_dialog.save`: validates `amount > 0`
then inserts one row into `transactions`. -/
def add_transaction (s : DB) (kind : TxnKind) (category : String) (amount : Int)
    (description : String) (date : Int) : Except String DB :=
  if amount ≤ 0 then
    Except.error "Le montant doit etre positif"
  else
    Except.ok { s with
      transactions :=
        s.transactions ++ [⟨s.nextTxnId, kind, category, amount, description, date⟩],
      nextTxnId := s.nextTxnId + 1 }

/-- Embedding of the delete branch of `on_transaction_click`:
`DELETE FROM transactions WHERE id = ?`. -/
def delete_transaction (s : DB) (tid : Nat) : DB :=
  { s with transactions := s.transactions.filter (fun t => t.id ≠ tid) }

/-- The arguments of the `add_debt_dialog` form, after the two
`float(...)` parses have succeeded. -/
structure AddDebtArgs where
  kind : DebtKind
  person_name : String
  phone : String
  amount : Int
  interest_rate : Int
  start_date : Int
  due_date : Option Int
  description : String
deriving DecidableEq, Repr

/-- The string the source interpolates into the auto-created contact note. -/
def kindStr : DebtKind → String
  | DebtKind.dette => "dette"
  | DebtKind.pret => "pret"

/-- The `debts` row inserted by `add_debt_dialog.save`: `amount_paid` and
`status` take their schema defaults `0` and `'actif'`. -/
def debtRow (s : DB) (a : AddDebtArgs) : Debt :=
  ⟨s.nextDebtId, a.kind, a.person_name, a.phone, a.amount, 0,
    a.interest_rate, a.start_date, a.due_date, DebtStatus.actif, a.description⟩

/-- The contact auto-insertion step of `add_debt_dialog.save`: when the
phone number is non-empty and matches no stored contact, one `contacts`
row is inserted, typed `debiteur` for a loan and `creancier` for a debt. -/
def maybeAddContact (s : DB) (a : AddDebtArgs) : DB :=
  if (s.contacts.find? (fun c => c.phone == a.phone)) = none ∧ a.phone ≠ "" then
    { s with
      contacts := s.contacts ++
        [⟨a.person_name, a.phone,
          (if a.kind = DebtKind.pret then "debiteur" else "creancier"),
          "Ajoute via " ++ kindStr a.kind⟩] }
  else
    s

/-- Embedding of `add_debt_dialog.save`: inserts one row into `debts`,
then runs the automatic contact insertion. -/
def add_debt (s : DB) (a : AddDebtArgs) : DB :=
  maybeAddContact
    { s with
      debts := s.debts ++ [debtRow s a],
      nextDebtId := s.nextDebtId + 1 } a

/-- Embedding of `add_contact_dialog.save`: inserts one row into `contacts`. -/
def add_contact (s : DB) (c : Contact) : DB :=
  { s with contacts := s.contacts ++ [c] }

/-- Outcome of the repayment save handler. -/
inductive RepayOutcome
  | ok (s : DB)
  | validationError (msg : String)
  | notFound
deriving DecidableEq, Repr

/-- The successful write of `show_repayment_dialog.save`: one `INSERT INTO
repayments` plus the `UPDATE debts SET amount_paid = ?, status = ?`. -/
def repayUpdate (s : DB) (did : Nat) (d : Debt) (a : Int) (date : Int) : DB :=
  { s with
    repayments := s.repayments ++ [⟨did, a, date, "Remboursement partiel"⟩],
    debts := s.debts.map (fun e =>
      if e.id == did then
        { e with
          amount_paid := d.amount_paid + a,
          status :=
            if d.amount ≤ d.amount_paid + a then DebtStatus.rembourse
            else DebtStatus.actif }
      else e) }

/-- Embedding of `show_repayment_dialog.save`: fetches the debt row,
rejects `amount <= 0 or amount > remaining` before any write, and
otherwise records the repayment and updates the debt in one commit.
No row of `transactions` is ever touched by this handler. -/
def apply_repayment (s : DB) (did : Nat) (a : Int) (date : Int) : RepayOutcome :=
  match s.debts.find? (fun e => e.id == did) with
  | none => RepayOutcome.notFound
  | some d =>
    if a ≤ 0 ∨ d.amount - d.amount_paid < a then
      RepayOutcome.validationError "Montant invalide"
    else
      RepayOutcome.ok (repayUpdate s did d a date)

/-- One user-level mutating operation of the application. -/
inductive Op
  | addTxn (kind : TxnKind) (category : String) (amount : Int)
      (description : String) (date : Int)
  | delTxn (tid : Nat)
  | addDebt (a : AddDebtArgs)
  | addContact (c : Contact)
  | repay (did : Nat) (amount : Int) (date : Int)
deriving DecidableEq, Repr

/-- Effect of one operation on the store; a rejected operation performs
no SQL statement, so it leaves the store unchanged. -/
def step (s : DB) : Op → DB
  | Op.addTxn k c a d dt =>
      match add_transaction s k c a d dt with
      | Except.ok s1 => s1
      | Except.error _ => s
  | Op.delTxn tid => delete_transaction s tid
  | Op.addDebt a => add_debt s a
  | Op.addContact c => add_contact s c
  | Op.repay did a dt =>
      match apply_repayment s did a dt with
      | RepayOutcome.ok s1 => s1
      | _ => s

/-- The state reached by a sequence of operations from a fresh database. -/
def run (ops : List Op) : DB := ops.foldl step initDB

/-- Embedding of the balance query of `calculate_stats`:
`SUM(CASE WHEN type='revenu' THEN amount ELSE -amount END)`. -/
def balance (ts : List Txn) : Int :=
  ts.foldr (fun t acc => (if t.kind = TxnKind.revenu then t.amount else -t.amount) + acc) 0

/-- Embedding of `calculate_stats` (the fields the dashboard claims use):
the balance is recomputed by a fresh scan on every call, and the active
count is `COUNT(*) FROM debts WHERE status IN ('actif','en_retard')`. -/
def calculate_stats (s : DB) : Int × Nat :=
  (balance s.transactions,
   (s.debts.filter (fun d =>
      d.status == DebtStatus.actif || d.status == DebtStatus.enRetard)).length)

/-- SQL comparison `due_date >= today`: a `NULL` due date compares false. -/
def sqlDueGe (due : Option Int) (today : Int) : Bool :=
  match due with
  | none => false
  | some d => today ≤ d

/-- SQL comparison `due_date < today`: a `NULL` due date compares false. -/
def sqlDueLt (due : Option Int) (today : Int) : Bool :=
  match due with
  | none => false
  | some d => d < today

/-- The SQLite `ORDER BY due_date ASC` order on nullable dates: `NULL`
sorts before every non-`NULL` value. -/
def dueLe : Option Int → Option Int → Prop
  | none, _ => True
  | some _, none => False
  | some x, some y => x ≤ y

instance : DecidableRel dueLe := fun a b =>
  match a, b with
  | none, _ => isTrue trivial
  | some _, none => isFalse (fun h => h)
  | some x, some y => inferInstanceAs (Decidable (x ≤ y))

instance : IsTotal (Option Int) dueLe :=
  ⟨fun a b => by
    cases a <;> cases b <;> simp [dueLe] <;> omega⟩

instance : IsTrans (Option Int) dueLe :=
  ⟨fun a b c hab hbc => by
    cases a <;> cases b <;> cases c <;> simp_all [dueLe] <;> omega⟩

/-- The row order produced by `ORDER BY due_date ASC` on the `debts` table. -/
def debtDueLe (a b : Debt) : Prop := dueLe a.due_date b.due_date

instance : DecidableRel debtDueLe := fun a b =>
  inferInstanceAs (Decidable (dueLe a.due_date b.due_date))

instance : IsTotal Debt debtDueLe :=
  ⟨fun a b => IsTotal.total (r := dueLe) a.due_date b.due_date⟩

instance : IsTrans Debt debtDueLe :=
  ⟨fun a b c hab hbc => IsTrans.trans (r := dueLe) _ _ _ hab hbc⟩

/-- Urgency bucket assigned by `load_all_deadlines`. -/
inductive Tier
  | urgent
  | warning
  | normal
deriving DecidableEq, Repr

/-- The per-row computation of `load_all_deadlines`:
`days_left = julianday(due_date) - julianday(today)` (a whole number for
two date-only values, unchanged by the `int` truncation), and the tier
thresholds `<= 3` urgent, `<= 7` warning, otherwise normal. -/
def classifyRow (today : Int) (d : Debt) : Debt × Int × Tier :=
  (d, d.due_date.getD 0 - today,
    if d.due_date.getD 0 - today ≤ 3 then Tier.urgent
    else if d.due_date.getD 0 - today ≤ 7 then Tier.warning
    else Tier.normal)

/-- Embedding of `load_all_deadlines`: rows of `debts` with
`due_date >= today AND status = 'actif'`, ordered by `due_date ASC`,
each carrying its day count and colour tier. -/
def load_all_deadlines (s : DB) (today : Int) : List (Debt × Int × Tier) :=
  (List.insertionSort debtDueLe
    (s.debts.filter (fun d =>
      sqlDueGe d.due_date today && d.status == DebtStatus.actif))).map
    (classifyRow today)

/-- An alert produced by `load_alerts`. -/
inductive Alert
  | negativeBalance (b : Int)
  | overdue (count : Nat)
deriving DecidableEq, Repr

/-- The count computed by `load_alerts`:
`COUNT(*) FROM debts WHERE due_date < ? AND status = 'actif'`. -/
def late_debts_count (s : DB) (today : Int) : Nat :=
  (s.debts.filter (fun d =>
    sqlDueLt d.due_date today && d.status == DebtStatus.actif)).length

/-- Embedding of `load_alerts`: the alert list, paired with the store it
leaves behind — the handler only runs `SELECT` statements, so the store
it returns is the one it was given. -/
def load_alerts (s : DB) (today : Int) : List Alert × DB :=
  let stats := calculate_stats s
  let alerts1 : List Alert :=
    if stats.1 < 0 then [Alert.negativeBalance stats.1] else []
  let n := late_debts_count s today
  let alerts2 : List Alert := if 0 < n then [Alert.overdue n] else []
  (alerts1 ++ alerts2, s)

/-- Embedding of `load_debts_data`: rows of `debts` with
`type = ? AND status != 'remboursé'`, ordered by `due_date ASC`
(SQLite places `NULL` due dates first). -/
def load_debts_data (s : DB) (dt : DebtKind) : List Debt :=
  List.insertionSort debtDueLe
    (s.debts.filter (fun d =>
      d.kind == dt && !(d.status == DebtStatus.rembourse)))

/-- Sum of the recorded repayment amounts for one debt id. -/
def repSum (rs : List Repayment) (did : Nat) : Int :=
  ((rs.filter (fun r => r.debt_id == did)).map Repayment.amount).sum

/-- Whether every `none` (undated) entry comes after every dated entry. -/
def undatedLast (l : List (Option Int)) : Bool :=
  (l.dropWhile Option.isSome).all Option.isNone

/-- Whether every `none` (undated) entry comes before every dated entry. -/
def undatedFirst (l : List (Option Int)) : Bool :=
  (l.dropWhile Option.isNone).all Option.isSome

/-- Concrete input exhibiting C6's failure: an obligation opened with
principal `-5` and interest rate `-1`. -/
def c6Args : AddDebtArgs :=
  ⟨DebtKind.dette, "X", "", -5, -1, 0, some 3, ""⟩

/-- Concrete input exhibiting C9's failure: one undated obligation
recorded before one dated obligation. -/
def opsC9 : List Op :=
  [Op.addDebt ⟨DebtKind.dette, "A", "", 100, 0, 0, none, ""⟩,
   Op.addDebt ⟨DebtKind.dette, "B", "", 100, 0, 0, some 5, ""⟩]

/-- Concrete store for the C1 theorems: one open debt of principal 100. -/
def sC1 : DB :=
  run [Op.addDebt ⟨DebtKind.dette, "A", "", 100, 0, 0, some 10, ""⟩]

/-- The debt row stored in `sC1`. -/
def dC1 : Debt :=
  ⟨1, DebtKind.dette, "A", "", 100, 0, 0, 0, some 10, DebtStatus.actif, ""⟩

/-- The store after applying a repayment of 50 to `sC1`. -/
def sC1r : DB := step sC1 (Op.repay 1 50 0)

/-- Concrete store for the C2 witness: one open debt of principal 50. -/
def sC2 : DB :=
  run [Op.addDebt ⟨DebtKind.dette, "B", "", 50, 0, 0, some 10, ""⟩]

/-- The debt row stored in `sC2`. -/
def dC2 : Debt :=
  ⟨1, DebtKind.dette, "B", "", 50, 0, 0, 0, some 10, DebtStatus.actif, ""⟩

/-- Concrete store with the debt of `sC2` fully repaid. -/
def sC2settled : DB := step sC2 (Op.repay 1 50 0)

/-- The settled debt row stored in `sC2settled`. -/
def dC2settled : Debt :=
  ⟨1, DebtKind.dette, "B", "", 50, 50, 0, 0, some 10, DebtStatus.rembourse, ""⟩

/-- Concrete input for the C10 witness. -/
def c10Args : AddDebtArgs :=
  ⟨DebtKind.pret, "A", "0812", 100, 0, 0, some 3, ""⟩

/-- The claim's selection for the deadline view, written from the spec:
obligations with status Active and a due date on or after today. -/
def upcomingActive (s : DB) (today : Int) : List Debt :=
  s.debts.filter (fun d =>
    d.status == DebtStatus.actif &&
    (match d.due_date with
     | some dd => decide (today ≤ dd)
     | none => false))

/-- Concrete store for the C7 witness: three active debts due on days 12,
25 and 5. -/
def s7 : DB :=
  run [Op.addDebt ⟨DebtKind.dette, "A", "", 100, 0, 0, some 12, ""⟩,
       Op.addDebt ⟨DebtKind.dette, "B", "", 100, 0, 0, some 25, ""⟩,
       Op.addDebt ⟨DebtKind.dette, "C", "", 100, 0, 0, some 5, ""⟩]

/-- The classified entry that the C7 witness inspects. -/
def x7 : Debt × Int × Tier :=
  (⟨1, DebtKind.dette, "A", "", 100, 0, 0, 0, some 12, DebtStatus.actif, ""⟩,
   2, Tier.urgent)

/-- The claim's overdue count, written from the spec: Active obligations
whose due date is strictly before today. -/
def overdueCountSpec (s : DB) (today : Int) : Nat :=
  (s.debts.filter (fun d =>
    (match d.due_date with
     | some dd => decide (dd < today)
     | none => false) && d.status == DebtStatus.actif)).length

/-- Concrete store for the C8 witness: one active debt due on day 5. -/
def s8 : DB :=
  run [Op.addDebt ⟨DebtKind.dette, "D", "", 100, 0, 0, some 5, ""⟩]

/-- The bookkeeping invariant that holds in every reachable store: debt
ids are below the AUTOINCREMENT counter and pairwise distinct, repayment
rows reference only issued ids, and every debt's `amount_paid` equals the
sum of its recorded repayments. -/
structure LedgerInv (s : DB) : Prop where
  debts_lt : ∀ d ∈ s.debts, d.id < s.nextDebtId
  reps_lt : ∀ r ∈ s.repayments, r.debt_id < s.nextDebtId
  ids_nodup : (s.debts.map Debt.id).Nodup
  sum_eq : ∀ d ∈ s.debts, repSum s.repayments d.id = d.amount_paid

/-- Operation sequence for the C3 witness: open a debt of 100 and repay
30 of it. -/
def opsC3 : List Op :=
  [Op.addDebt ⟨DebtKind.dette, "E", "", 100, 0, 0, some 10, ""⟩,
   Op.repay 1 30 0]

/-- The debt row stored after `opsC3`. -/
def dC3 : Debt :=
  ⟨1, DebtKind.dette, "E", "", 100, 30, 0, 0, some 10, DebtStatus.actif, ""⟩

/-- Whether one operation satisfies the spec's `open` precondition
`principal > 0` (the engine itself does not enforce it; see C6). -/
def goodOp : Op → Bool
  | Op.addDebt a => decide (0 < a.amount)
  | _ => true

/-- The status/amount relationship claimed by C4, for one debt row. -/
def statusMatches (d : Debt) : Prop :=
  (d.status = DebtStatus.rembourse ↔ d.amount ≤ d.amount_paid)
  ∧ (d.status = DebtStatus.actif ↔ d.amount_paid < d.amount)

/-- Concrete input exhibiting C4's failure: an obligation opened with
principal 0 (which `open` accepts, see C6). -/
def opsC4 : List Op :=
  [Op.addDebt ⟨DebtKind.dette, "Z", "", 0, 0, 0, some 3, ""⟩]

/-- Operation sequence for the C4 witness: open a debt of 100 and repay
it in full. -/
def opsC4w : List Op :=
  [Op.addDebt ⟨DebtKind.dette, "W", "", 100, 0, 0, some 3, ""⟩,
   Op.repay 1 100 0]

/-- The settled debt row stored after `opsC4w`. -/
def dC4 : Debt :=
  ⟨1, DebtKind.dette, "W", "", 100, 100, 0, 0, some 3,
    DebtStatus.rembourse, ""⟩

lemma maybeAddContact_debts (s : DB) (a : AddDebtArgs) :
    (maybeAddContact s a).debts = s.debts := by
  unfold maybeAddContact
  split <;> rfl

lemma maybeAddContact_transactions (s : DB) (a : AddDebtArgs) :
    (maybeAddContact s a).transactions = s.transactions := by
  unfold maybeAddContact
  split <;> rfl

lemma maybeAddContact_repayments (s : DB) (a : AddDebtArgs) :
    (maybeAddContact s a).repayments = s.repayments := by
  unfold maybeAddContact
  split <;> rfl

lemma maybeAddContact_nextDebtId (s : DB) (a : AddDebtArgs) :
    (maybeAddContact s a).nextDebtId = s.nextDebtId := by
  unfold maybeAddContact
  split <;> rfl

lemma balance_split (ts : List Txn) :
    balance ts =
      ((ts.filter (fun t => t.kind == TxnKind.revenu)).map Txn.amount).sum -
      ((ts.filter (fun t => t.kind == TxnKind.depense)).map Txn.amount).sum := by
  induction ts with
  | nil => simp [balance]
  | cons t ts ih =>
    have hb : balance (t :: ts) =
        (if t.kind = TxnKind.revenu then t.amount else -t.amount) + balance ts := rfl
    rw [hb, ih]
    cases h : t.kind <;> simp [List.filter_cons, h] <;> ring

/-- C5: `balance()` returns the sum of the Income amounts minus the sum of
the Expense amounts, recomputed by a fresh scan of the stored transactions
on every call (the engine keeps no cached total that could diverge). -/
theorem C5_balance_recomputation :
    ∀ s : DB,
      (calculate_stats s).1 =
        ((s.transactions.filter (fun t => t.kind == TxnKind.revenu)).map Txn.amount).sum -
        ((s.transactions.filter (fun t => t.kind == TxnKind.depense)).map Txn.amount).sum := by
  intro s
  exact balance_split s.transactions

/-- C6 counterexample: `open` with principal `-5 ≤ 0` and interest rate
`-1 < 0` does not fail with a `ValidationError` — it succeeds and inserts
the obligation. -/
theorem C6_counterexample :
    (add_debt initDB c6Args).debts =
      [⟨1, DebtKind.dette, "X", "", -5, 0, -1, 0, some 3, DebtStatus.actif, ""⟩]
    ∧ ((-5 : Int) ≤ 0) ∧ ((-1 : Int) < 0) := by
  decide

/-- C6 amended: `open` never rejects its numeric arguments — a
non-positive principal and a negative interest rate are accepted and
stored as given — and the new obligation is always initialized with
`amountPaid = 0` and `status = Active`. -/
theorem C6_open_always_succeeds :
    ∀ (s : DB) (a : AddDebtArgs),
      (add_debt s a).debts = s.debts ++
        [⟨s.nextDebtId, a.kind, a.person_name, a.phone, a.amount, 0,
          a.interest_rate, a.start_date, a.due_date, DebtStatus.actif,
          a.description⟩] := by
  intro s a
  unfold add_debt
  rw [maybeAddContact_debts]
  rfl

/-- C9 counterexample: the obligation listing places the undated
obligation first, before the dated one — not after all dated ones as the
claim states (SQLite sorts `NULL` first under `ORDER BY ... ASC`). -/
theorem C9_counterexample :
    ((load_debts_data (run opsC9) DebtKind.dette).map Debt.due_date
        = [none, some 5])
    ∧ undatedLast
        ((load_debts_data (run opsC9) DebtKind.dette).map Debt.due_date)
        = false := by
  decide

lemma undatedFirst_of_pairwise :
    ∀ l : List (Option Int), l.Pairwise dueLe → undatedFirst l = true := by
  intro l h
  induction l with
  | nil => rfl
  | cons a t ih =>
    rcases List.pairwise_cons.mp h with ⟨ha, ht⟩
    cases a with
    | none =>
      simpa [undatedFirst, List.dropWhile] using ih ht
    | some x =>
      simp only [undatedFirst, List.dropWhile, Option.isNone_some,
        List.all_cons, Option.isSome_some, Bool.true_and]
      rw [List.all_eq_true]
      intro b hb
      have hle := ha b hb
      cases b with
      | none => exact absurd hle (fun hf => hf)
      | some y => rfl

/-- C9 amended: the obligation listing is ordered ascending by `dueDate`,
with undated obligations placed before all dated ones (SQLite sorts
`NULL` due dates first), and it contains exactly the stored obligations
of the requested kind that are not settled. -/
theorem C9_listing_order :
    ∀ (s : DB) (dt : DebtKind),
      List.Pairwise debtDueLe (load_debts_data s dt)
      ∧ (load_debts_data s dt).Perm
          (s.debts.filter (fun d =>
            d.kind == dt && !(d.status == DebtStatus.rembourse)))
      ∧ undatedFirst ((load_debts_data s dt).map Debt.due_date) = true := by
  intro s dt
  refine ⟨List.sorted_insertionSort debtDueLe _,
    List.perm_insertionSort debtDueLe _, ?_⟩
  apply undatedFirst_of_pairwise
  exact List.Pairwise.map Debt.due_date (fun a b hab => hab)
    (List.sorted_insertionSort debtDueLe _)

/-- C10: opening an obligation whose phone number is non-empty and
matches no stored contact also inserts one row into the `contacts`
table, typed `debiteur` for a loan and `creancier` for a debt — so the
operation mutates state outside the transactions, debts and repayments
tables. -/
theorem C10_contact_side_effect :
    ∀ (s : DB) (a : AddDebtArgs),
      a.phone ≠ "" → (∀ c ∈ s.contacts, c.phone ≠ a.phone) →
      (add_debt s a).contacts = s.contacts ++
        [⟨a.person_name, a.phone,
          (if a.kind = DebtKind.pret then "debiteur" else "creancier"),
          "Ajoute via " ++ kindStr a.kind⟩]
      ∧ (add_debt s a).contacts ≠ s.contacts := by
  intro s a hphone hnew
  have hfind : (s.contacts.find? (fun c => c.phone == a.phone)) = none := by
    rw [List.find?_eq_none]
    intro c hc
    simpa using hnew c hc
  have hmain : (add_debt s a).contacts = s.contacts ++
      [⟨a.person_name, a.phone,
        (if a.kind = DebtKind.pret then "debiteur" else "creancier"),
        "Ajoute via " ++ kindStr a.kind⟩] := by
    unfold add_debt maybeAddContact
    rw [if_pos ⟨hfind, hphone⟩]
  refine ⟨hmain, ?_⟩
  rw [hmain]
  intro hcontra
  have hlen := congrArg List.length hcontra
  simp at hlen

lemma apply_repayment_found {s : DB} {did : Nat} (a : Int) (dt : Int)
    {d : Debt} (hd : s.debts.find? (fun e => e.id == did) = some d) :
    apply_repayment s did a dt =
      if a ≤ 0 ∨ d.amount - d.amount_paid < a then
        RepayOutcome.validationError "Montant invalide"
      else
        RepayOutcome.ok (repayUpdate s did d a dt) := by
  unfold apply_repayment
  rw [hd]

lemma apply_repayment_ok_elim {s : DB} {did : Nat} {a : Int} {dt : Int}
    {d : Debt} {s1 : DB}
    (hd : s.debts.find? (fun e => e.id == did) = some d)
    (h : apply_repayment s did a dt = RepayOutcome.ok s1) :
    ¬(a ≤ 0 ∨ d.amount - d.amount_paid < a) ∧ s1 = repayUpdate s did d a dt := by
  rw [apply_repayment_found a dt hd] at h
  by_cases hc : a ≤ 0 ∨ d.amount - d.amount_paid < a
  · rw [if_pos hc] at h
    exact absurd h (by simp)
  · rw [if_neg hc] at h
    refine ⟨hc, ?_⟩
    cases h
    rfl

/-- C1 amended: a successful `applyRepayment` records exactly one
`Repayment` and updates the obligation's `amountPaid` and `status` in the
same commit, but records no mirrored `Transaction` — the transactions
ledger is left unchanged by a repayment.  (The streamlit front-end
`app.py` is the only place a cash-flow mirror exists, and there the
amount is signed, not positive-with-kind.) -/
theorem C1_repayment_no_mirror :
    ∀ (s : DB) (did : Nat) (a : Int) (dt : Int) (d : Debt) (s1 : DB),
      s.debts.find? (fun e => e.id == did) = some d →
      apply_repayment s did a dt = RepayOutcome.ok s1 →
      s1.transactions = s.transactions
      ∧ s1.repayments = s.repayments ++ [⟨did, a, dt, "Remboursement partiel"⟩]
      ∧ s1.debts = s.debts.map (fun e =>
          if e.id == did then
            { e with
              amount_paid := d.amount_paid + a,
              status :=
                if d.amount ≤ d.amount_paid + a then DebtStatus.rembourse
                else DebtStatus.actif }
          else e) := by
  intro s did a dt d s1 hd h
  rcases apply_repayment_ok_elim hd h with ⟨-, rfl⟩
  exact ⟨rfl, rfl, rfl⟩

/-- C1 counterexample: the repayment of 50 on the debt of 100 succeeds,
records the `Repayment`, yet the `transactions` table stays empty — no
mirrored `Transaction` is recorded with the `Repayment`. -/
theorem C1_counterexample :
    apply_repayment sC1 1 50 0 = RepayOutcome.ok sC1r
    ∧ sC1r.repayments.length = sC1.repayments.length + 1
    ∧ sC1r.transactions = []
    ∧ ¬(sC1r.transactions.length = sC1.transactions.length + 1) := by
  decide

/-- C1 witness: the amended theorem at the concrete repayment of 50. -/
theorem C1_witness :
    sC1r.transactions = sC1.transactions
    ∧ sC1r.repayments = sC1.repayments ++ [⟨1, 50, 0, "Remboursement partiel"⟩]
    ∧ sC1r.debts = sC1.debts.map (fun e =>
        if e.id == 1 then
          { e with
            amount_paid := dC1.amount_paid + 50,
            status :=
              if dC1.amount ≤ dC1.amount_paid + 50 then DebtStatus.rembourse
              else DebtStatus.actif }
        else e) :=
  C1_repayment_no_mirror sC1 1 50 0 dC1 sC1r (by decide) (by decide)

/-- C2: with the obligation present, a repayment whose amount is
non-positive or exceeds the remaining balance fails with the validation
error and leaves the whole store unchanged; once the remaining balance is
zero every further repayment fails; and a successful repayment never
pushes `amountPaid` above the principal. -/
theorem C2_repayment_validation :
    ∀ (s : DB) (did : Nat) (a : Int) (dt : Int) (d : Debt),
      s.debts.find? (fun e => e.id == did) = some d →
      ((a ≤ 0 ∨ d.amount - d.amount_paid < a) →
          apply_repayment s did a dt = RepayOutcome.validationError "Montant invalide"
          ∧ step s (Op.repay did a dt) = s)
      ∧ (d.amount - d.amount_paid = 0 →
          ∀ s1 : DB, ¬(apply_repayment s did a dt = RepayOutcome.ok s1))
      ∧ (∀ s1 : DB, apply_repayment s did a dt = RepayOutcome.ok s1 →
          d.amount_paid + a ≤ d.amount) := by
  intro s did a dt d hd
  refine ⟨?_, ?_, ?_⟩
  · intro hbad
    have h1 : apply_repayment s did a dt =
        RepayOutcome.validationError "Montant invalide" := by
      rw [apply_repayment_found a dt hd, if_pos hbad]
    refine ⟨h1, ?_⟩
    show (match apply_repayment s did a dt with
          | RepayOutcome.ok s1 => s1
          | _ => s) = s
    rw [h1]
  · intro hzero s1 hok
    rcases apply_repayment_ok_elim hd hok with ⟨hc, -⟩
    rcases not_or.mp hc with ⟨hpos, hle⟩
    have h0 : 0 < a := lt_of_not_le hpos
    have h1 : a ≤ d.amount - d.amount_paid := le_of_not_lt hle
    rw [hzero] at h1
    exact absurd (lt_of_lt_of_le h0 h1) (lt_irrefl 0)
  · intro s1 hok
    rcases apply_repayment_ok_elim hd hok with ⟨hc, -⟩
    have h1 : a ≤ d.amount - d.amount_paid := le_of_not_lt (not_or.mp hc).2
    linarith

/-- C2 witness: repaying 60 on a remaining balance of 50 is rejected with
the store unchanged; after full settlement a repayment of 30 cannot
succeed; and the successful repayment of 30 on the live debt keeps
`amountPaid` at most the principal. -/
theorem C2_witness :
    (apply_repayment sC2 1 60 0 = RepayOutcome.validationError "Montant invalide"
      ∧ step sC2 (Op.repay 1 60 0) = sC2)
    ∧ ¬(apply_repayment sC2settled 1 30 0 = RepayOutcome.ok sC2settled)
    ∧ ((0 : Int) + 30 ≤ 50) :=
  ⟨(C2_repayment_validation sC2 1 60 0 dC2 (by decide)).1 (by decide),
   (C2_repayment_validation sC2settled 1 30 0 dC2settled (by decide)).2.1
     (by decide) sC2settled,
   (C2_repayment_validation sC2 1 30 0 dC2 (by decide)).2.2
     (step sC2 (Op.repay 1 30 0)) (by decide)⟩

/-- C10 witness: opening a loan for a new phone number on the fresh
database appends one `debiteur` contact. -/
theorem C10_witness :
    (add_debt initDB c10Args).contacts = initDB.contacts ++
      [⟨"A", "0812", "debiteur", "Ajoute via pret"⟩]
    ∧ (add_debt initDB c10Args).contacts ≠ initDB.contacts :=
  C10_contact_side_effect initDB c10Args (by decide) (by decide)

lemma rows_eq_upcomingActive (s : DB) (today : Int) :
    s.debts.filter (fun d =>
        sqlDueGe d.due_date today && d.status == DebtStatus.actif)
      = upcomingActive s today := by
  unfold upcomingActive
  apply List.filter_congr
  intro d hd
  cases hdd : d.due_date <;> simp [sqlDueGe, hdd, Bool.and_comm]

/-- C7: the deadline view contains exactly the Active obligations whose
due date is on or after today (past-due ones are excluded), ordered
ascending by due date, each with `daysRemaining = dueDate - today` in
whole days and tier Urgent when `daysRemaining <= 3`, Warning when
`3 < daysRemaining <= 7`, Normal otherwise. -/
theorem C7_deadlines_classification :
    ∀ (s : DB) (today : Int),
      ((load_all_deadlines s today).map Prod.fst).Perm (upcomingActive s today)
      ∧ List.Pairwise
          (fun x y : Debt × Int × Tier => dueLe x.1.due_date y.1.due_date)
          (load_all_deadlines s today)
      ∧ (∀ x ∈ load_all_deadlines s today,
          x.1.due_date.isSome = true
          ∧ today ≤ x.1.due_date.getD 0
          ∧ x.2.1 = x.1.due_date.getD 0 - today
          ∧ (x.2.1 ≤ 3 → x.2.2 = Tier.urgent)
          ∧ (3 < x.2.1 → x.2.1 ≤ 7 → x.2.2 = Tier.warning)
          ∧ (7 < x.2.1 → x.2.2 = Tier.normal)) := by
  intro s today
  refine ⟨?_, ?_, ?_⟩
  · have h1 : (load_all_deadlines s today).map Prod.fst =
        List.insertionSort debtDueLe
          (s.debts.filter (fun d =>
            sqlDueGe d.due_date today && d.status == DebtStatus.actif)) := by
      unfold load_all_deadlines
      rw [List.map_map]
      have h2 : Prod.fst ∘ classifyRow today = id := by
        funext d
        rfl
      rw [h2, List.map_id]
    rw [h1, rows_eq_upcomingActive]
    exact List.perm_insertionSort debtDueLe _
  · unfold load_all_deadlines
    exact List.Pairwise.map (classifyRow today) (fun a b hab => hab)
      (List.sorted_insertionSort debtDueLe _)
  · intro x hx
    unfold load_all_deadlines at hx
    rcases List.mem_map.mp hx with ⟨d, hd, rfl⟩
    have hdrows : d ∈ s.debts.filter (fun d =>
        sqlDueGe d.due_date today && d.status == DebtStatus.actif) :=
      (List.perm_insertionSort debtDueLe _).mem_iff.mp hd
    have hpred := (List.mem_filter.mp hdrows).2
    have hge : sqlDueGe d.due_date today = true := by
      cases h1 : sqlDueGe d.due_date today with
      | true => rfl
      | false => rw [h1] at hpred; simp at hpred
    cases hdd : d.due_date with
    | none =>
      rw [hdd] at hge
      exact absurd hge (by simp [sqlDueGe])
    | some dd =>
      have htoday : today ≤ dd := by
        rw [hdd] at hge
        simpa [sqlDueGe] using hge
      refine ⟨by simp [classifyRow, hdd], by simp [classifyRow, hdd, htoday],
        by simp [classifyRow], ?_, ?_, ?_⟩
      · intro h3
        simp only [classifyRow, hdd] at h3 ⊢
        rw [if_pos h3]
      · intro h3 h7
        simp only [classifyRow, hdd] at h3 h7 ⊢
        rw [if_neg (by omega), if_pos h7]
      · intro h7
        simp only [classifyRow, hdd] at h7 ⊢
        rw [if_neg (by omega), if_neg (by omega)]

/-- C7 witness: on day 10 the view over `s7` matches the claim, and its
entry due on day 12 carries 2 days remaining and the Urgent tier. -/
theorem C7_witness :
    ((load_all_deadlines s7 10).map Prod.fst).Perm (upcomingActive s7 10)
    ∧ List.Pairwise
        (fun x y : Debt × Int × Tier => dueLe x.1.due_date y.1.due_date)
        (load_all_deadlines s7 10)
    ∧ (x7.1.due_date.isSome = true
        ∧ (10 : Int) ≤ x7.1.due_date.getD 0
        ∧ x7.2.1 = x7.1.due_date.getD 0 - 10
        ∧ x7.2.2 = Tier.urgent) :=
  ⟨(C7_deadlines_classification s7 10).1,
   (C7_deadlines_classification s7 10).2.1,
   ⟨((C7_deadlines_classification s7 10).2.2 x7 (by decide)).1,
    ((C7_deadlines_classification s7 10).2.2 x7 (by decide)).2.1,
    ((C7_deadlines_classification s7 10).2.2 x7 (by decide)).2.2.1,
    ((C7_deadlines_classification s7 10).2.2 x7 (by decide)).2.2.2.1 (by decide)⟩⟩

lemma overdueCountSpec_eq (s : DB) (today : Int) :
    overdueCountSpec s today = late_debts_count s today := by
  unfold overdueCountSpec late_debts_count
  congr 1
  apply List.filter_congr
  intro d hd
  cases hdd : d.due_date <;> simp [sqlDueLt, hdd]

lemma load_alerts_fst (s : DB) (today : Int) :
    (load_alerts s today).1 =
      (if balance s.transactions < 0
        then [Alert.negativeBalance (balance s.transactions)] else []) ++
      (if 0 < late_debts_count s today
        then [Alert.overdue (late_debts_count s today)] else []) := rfl

/-- C8: evaluating the alerts returns the store unchanged (no status
transition or any other write is persisted), and it emits an overdue
alert carrying the count of Active obligations with due date before
today exactly when that count is positive. -/
theorem C8_alerts_read_only :
    ∀ (s : DB) (today : Int),
      (load_alerts s today).2 = s
      ∧ (0 < overdueCountSpec s today →
          Alert.overdue (overdueCountSpec s today) ∈ (load_alerts s today).1)
      ∧ (overdueCountSpec s today = 0 →
          ∀ n, ¬(Alert.overdue n ∈ (load_alerts s today).1))
      ∧ (∀ n, Alert.overdue n ∈ (load_alerts s today).1 →
          n = overdueCountSpec s today) := by
  intro s today
  have hc : overdueCountSpec s today = late_debts_count s today :=
    overdueCountSpec_eq s today
  refine ⟨rfl, ?_, ?_, ?_⟩
  · intro hpos
    rw [hc] at hpos ⊢
    rw [load_alerts_fst, if_pos hpos]
    exact List.mem_append_right _ (List.mem_singleton.mpr rfl)
  · intro hzero n hmem
    rw [hc] at hzero
    rw [load_alerts_fst, hzero] at hmem
    by_cases hb : balance s.transactions < 0 <;> simp [hb] at hmem
  · intro n hmem
    rw [hc]
    rw [load_alerts_fst] at hmem
    by_cases hb : balance s.transactions < 0 <;>
      by_cases hp : 0 < late_debts_count s today <;>
        simp [hb, hp] at hmem <;> exact hmem

/-- C8 witness: on day 10 the evaluation leaves `s8` unchanged and emits
the overdue alert carrying the count 1. -/
theorem C8_witness :
    (load_alerts s8 10).2 = s8
    ∧ Alert.overdue (overdueCountSpec s8 10) ∈ (load_alerts s8 10).1
    ∧ (1 : Nat) = overdueCountSpec s8 10 :=
  ⟨(C8_alerts_read_only s8 10).1,
   (C8_alerts_read_only s8 10).2.1 (by decide),
   (C8_alerts_read_only s8 10).2.2.2 1 (by decide)⟩

lemma repSum_append (rs : List Repayment) (r : Repayment) (did : Nat) :
    repSum (rs ++ [r]) did =
      repSum rs did + (if r.debt_id == did then r.amount else 0) := by
  by_cases hr : (r.debt_id == did) = true
  · simp [repSum, List.filter_append, hr]
  · simp [repSum, List.filter_append, hr]

lemma repSum_eq_zero {rs : List Repayment} {n : Nat}
    (h : ∀ r ∈ rs, r.debt_id ≠ n) : repSum rs n = 0 := by
  have hnil : rs.filter (fun r => r.debt_id == n) = [] :=
    List.filter_eq_nil_iff.mpr (fun r hr => by simp [h r hr])
  simp [repSum, hnil]

lemma ledgerInv_initDB : LedgerInv initDB := by
  refine ⟨?_, ?_, ?_, ?_⟩ <;> simp [initDB]

lemma ledgerInv_maybeAddContact {s : DB} {a : AddDebtArgs}
    (h : LedgerInv s) : LedgerInv (maybeAddContact s a) := by
  refine ⟨?_, ?_, ?_, ?_⟩
  · intro d hd
    rw [maybeAddContact_debts] at hd
    rw [maybeAddContact_nextDebtId]
    exact h.debts_lt d hd
  · intro r hr
    rw [maybeAddContact_repayments] at hr
    rw [maybeAddContact_nextDebtId]
    exact h.reps_lt r hr
  · rw [maybeAddContact_debts]
    exact h.ids_nodup
  · intro d hd
    rw [maybeAddContact_debts] at hd
    rw [maybeAddContact_repayments]
    exact h.sum_eq d hd

lemma ledgerInv_add_debt {s : DB} (a : AddDebtArgs)
    (h : LedgerInv s) : LedgerInv (add_debt s a) := by
  unfold add_debt
  apply ledgerInv_maybeAddContact
  refine ⟨?_, ?_, ?_, ?_⟩
  · intro d hd
    rcases List.mem_append.mp hd with hold | hnew
    · exact Nat.lt_trans (h.debts_lt d hold) (Nat.lt_succ_self _)
    · rw [List.mem_singleton.mp hnew]
      exact Nat.lt_succ_self _
  · intro r hr
    exact Nat.lt_trans (h.reps_lt r hr) (Nat.lt_succ_self _)
  · rw [List.map_append]
    rw [List.nodup_append]
    refine ⟨h.ids_nodup, List.nodup_singleton _, ?_⟩
    intro x hx hx1
    rcases List.mem_map.mp hx with ⟨d, hd, rfl⟩
    have hlt := h.debts_lt d hd
    have : d.id = s.nextDebtId := by
      simpa [debtRow] using hx1
    omega
  · intro d hd
    rcases List.mem_append.mp hd with hold | hnew
    · exact h.sum_eq d hold
    · rw [List.mem_singleton.mp hnew]
      show repSum s.repayments s.nextDebtId = 0
      exact repSum_eq_zero (fun r hr => Nat.ne_of_lt (h.reps_lt r hr))

lemma ledgerInv_repayUpdate {s : DB} {did : Nat} {d : Debt} (a : Int)
    (dt : Int) (hfind : s.debts.find? (fun e => e.id == did) = some d)
    (h : LedgerInv s) : LedgerInv (repayUpdate s did d a dt) := by
  have hdmem : d ∈ s.debts := List.mem_of_find?_eq_some hfind
  have hdid : d.id = did := by
    have := List.find?_some hfind
    simpa using this
  have hids : ((repayUpdate s did d a dt).debts.map Debt.id) =
      s.debts.map Debt.id := by
    show ((s.debts.map _).map Debt.id) = s.debts.map Debt.id
    rw [List.map_map]
    apply List.map_congr_left
    intro e he
    by_cases hc : (e.id == did) = true
    · rw [Function.comp_apply, if_pos hc]
    · rw [Function.comp_apply, if_neg hc]
  refine ⟨?_, ?_, ?_, ?_⟩
  · intro e he
    rcases List.mem_map.mp he with ⟨e0, he0, rfl⟩
    show _ < s.nextDebtId
    by_cases hc : (e0.id == did) = true
    · rw [if_pos hc]
      exact h.debts_lt e0 he0
    · rw [if_neg hc]
      exact h.debts_lt e0 he0
  · intro r hr
    rcases List.mem_append.mp hr with hold | hnew
    · exact h.reps_lt r hold
    · rw [List.mem_singleton.mp hnew]
      show did < s.nextDebtId
      rw [← hdid]
      exact h.debts_lt d hdmem
  · rw [hids]
    exact h.ids_nodup
  · intro e he
    rcases List.mem_map.mp he with ⟨e0, he0, rfl⟩
    by_cases hc : (e0.id == did) = true
    · have he0id : e0.id = did := by simpa using hc
      have he0d : e0 = d :=
        List.inj_on_of_nodup_map h.ids_nodup he0 hdmem (by rw [he0id, hdid])
      subst he0d
      rw [if_pos hc]
      show repSum (s.repayments ++ [⟨did, a, dt, "Remboursement partiel"⟩])
          e0.id = e0.amount_paid + a
      rw [repSum_append, h.sum_eq e0 he0]
      have hbeq : ((⟨did, a, dt, "Remboursement partiel"⟩ : Repayment).debt_id
          == e0.id) = true := by simp [he0id]
      rw [hbeq]
      simp
    · rw [if_neg hc]
      show repSum (s.repayments ++ [⟨did, a, dt, "Remboursement partiel"⟩])
          e0.id = e0.amount_paid
      rw [repSum_append, h.sum_eq e0 he0]
      have hbeq : ((⟨did, a, dt, "Remboursement partiel"⟩ : Repayment).debt_id
          == e0.id) = false := by
        show (did == e0.id) = false
        have hne : ¬(e0.id = did) := by
          intro hcontra
          exact hc (by simp [hcontra])
        simp
        omega
      rw [hbeq]
      simp

lemma ledgerInv_step {s : DB} (h : LedgerInv s) (op : Op) :
    LedgerInv (step s op) := by
  cases op with
  | addTxn k c a de dt =>
    by_cases ha : a ≤ 0
    · have hs : step s (Op.addTxn k c a de dt) = s := by
        simp only [step, add_transaction]
        rw [if_pos ha]
      rw [hs]
      exact h
    · have hs : step s (Op.addTxn k c a de dt) =
          { s with
            transactions := s.transactions ++
              [⟨s.nextTxnId, k, c, a, de, dt⟩],
            nextTxnId := s.nextTxnId + 1 } := by
        simp only [step, add_transaction]
        rw [if_neg ha]
      rw [hs]
      exact ⟨h.debts_lt, h.reps_lt, h.ids_nodup, h.sum_eq⟩
  | delTxn tid =>
    exact ⟨h.debts_lt, h.reps_lt, h.ids_nodup, h.sum_eq⟩
  | addDebt a =>
    exact ledgerInv_add_debt a h
  | addContact c =>
    exact ⟨h.debts_lt, h.reps_lt, h.ids_nodup, h.sum_eq⟩
  | repay did a dt =>
    show LedgerInv (match apply_repayment s did a dt with
      | RepayOutcome.ok s1 => s1
      | _ => s)
    cases hf : s.debts.find? (fun e => e.id == did) with
    | none =>
      have : apply_repayment s did a dt = RepayOutcome.notFound := by
        unfold apply_repayment
        rw [hf]
      rw [this]
      exact h
    | some d =>
      rw [apply_repayment_found a dt hf]
      by_cases hc : a ≤ 0 ∨ d.amount - d.amount_paid < a
      · rw [if_pos hc]
        exact h
      · rw [if_neg hc]
        exact ledgerInv_repayUpdate a dt hf h

lemma ledgerInv_foldl : ∀ (ops : List Op) (s : DB),
    LedgerInv s → LedgerInv (ops.foldl step s) := by
  intro ops
  induction ops with
  | nil => intro s h; exact h
  | cons op ops ih =>
    intro s h
    exact ih (step s op) (ledgerInv_step h op)

lemma ledgerInv_run (ops : List Op) : LedgerInv (run ops) :=
  ledgerInv_foldl ops initDB ledgerInv_initDB

/-- C3: in every store reachable by the engine's operations, every
obligation's `amountPaid` equals the sum of the amounts of the repayment
rows that reference it. -/
theorem C3_repayment_sum_invariant :
    ∀ (ops : List Op), ∀ d ∈ (run ops).debts,
      repSum (run ops).repayments d.id = d.amount_paid := by
  intro ops d hd
  exact (ledgerInv_run ops).sum_eq d hd

/-- C3 witness: after opening a debt of 100 and repaying 30, the stored
repayments for that debt sum to its `amountPaid` of 30. -/
theorem C3_witness :
    dC3 ∈ (run opsC3).debts
    ∧ repSum (run opsC3).repayments dC3.id = dC3.amount_paid :=
  ⟨by decide, C3_repayment_sum_invariant opsC3 dC3 (by decide)⟩

lemma statusMatches_step {s : DB} (hL : LedgerInv s)
    (hS : ∀ d ∈ s.debts, statusMatches d) {op : Op}
    (hop : goodOp op = true) :
    ∀ d ∈ (step s op).debts, statusMatches d := by
  cases op with
  | addTxn k c a de dt =>
    by_cases ha : a ≤ 0
    · have hs : step s (Op.addTxn k c a de dt) = s := by
        simp only [step, add_transaction]
        rw [if_pos ha]
      rw [hs]
      exact hS
    · have hs : step s (Op.addTxn k c a de dt) =
          { s with
            transactions := s.transactions ++
              [⟨s.nextTxnId, k, c, a, de, dt⟩],
            nextTxnId := s.nextTxnId + 1 } := by
        simp only [step, add_transaction]
        rw [if_neg ha]
      rw [hs]
      exact hS
  | delTxn tid =>
    exact hS
  | addContact c =>
    exact hS
  | addDebt a =>
    intro d hd
    have hdebts : (step s (Op.addDebt a)).debts = s.debts ++ [debtRow s a] := by
      show (add_debt s a).debts = _
      unfold add_debt
      rw [maybeAddContact_debts]
    rw [hdebts] at hd
    rcases List.mem_append.mp hd with hold | hnew
    · exact hS d hold
    · rw [List.mem_singleton.mp hnew]
      have hpos : 0 < a.amount := of_decide_eq_true hop
      show statusMatches (debtRow s a)
      unfold statusMatches debtRow
      simp
      omega
  | repay did a dt =>
    show ∀ d ∈ (match apply_repayment s did a dt with
        | RepayOutcome.ok s1 => s1
        | _ => s).debts, statusMatches d
    cases hf : s.debts.find? (fun e => e.id == did) with
    | none =>
      have hnf : apply_repayment s did a dt = RepayOutcome.notFound := by
        unfold apply_repayment
        rw [hf]
      rw [hnf]
      exact hS
    | some d =>
      have hdmem : d ∈ s.debts := List.mem_of_find?_eq_some hf
      have hdid : d.id = did := by
        have := List.find?_some hf
        simpa using this
      rw [apply_repayment_found a dt hf]
      by_cases hc : a ≤ 0 ∨ d.amount - d.amount_paid < a
      · rw [if_pos hc]
        exact hS
      · rw [if_neg hc]
        intro e' he'
        rcases List.mem_map.mp he' with ⟨e0, he0, rfl⟩
        by_cases hce : (e0.id == did) = true
        · have he0id : e0.id = did := by simpa using hce
          have he0d : e0 = d :=
            List.inj_on_of_nodup_map hL.ids_nodup he0 hdmem
              (by rw [he0id, hdid])
          subst he0d
          rw [if_pos hce]
          unfold statusMatches
          by_cases hif : e0.amount ≤ e0.amount_paid + a
          · rw [if_pos hif]
            simp
            omega
          · rw [if_neg hif]
            simp
            omega
        · rw [if_neg hce]
          exact hS e0 he0

lemma statusMatches_foldl :
    ∀ (ops : List Op) (s : DB), LedgerInv s →
      (∀ d ∈ s.debts, statusMatches d) →
      (∀ op ∈ ops, goodOp op = true) →
      ∀ d ∈ (ops.foldl step s).debts, statusMatches d := by
  intro ops
  induction ops with
  | nil =>
    intro s _ hS _
    exact hS
  | cons op ops ih =>
    intro s hL hS hgood
    exact ih (step s op) (ledgerInv_step hL op)
      (statusMatches_step hL hS (hgood op (by simp)))
      (fun o ho => hgood o (by simp [ho]))

/-- C4 counterexample: after opening an obligation with principal 0, the
store holds a debt whose `amountPaid` (0) is at least its principal (0)
yet whose status is Active, not Settled — the claimed equivalence fails
in a reachable state. -/
theorem C4_counterexample :
    (run opsC4).debts.map (fun d => (d.status, d.amount, d.amount_paid))
      = [(DebtStatus.actif, 0, 0)]
    ∧ ((0 : Int) ≤ 0)
    ∧ DebtStatus.actif ≠ DebtStatus.rembourse := by
  decide

/-- C4 amended: in every store reachable by operations whose obligations
are opened with positive principal (the spec's `open` precondition),
every obligation's status is Settled exactly when `amountPaid` has
reached the principal, and Active exactly otherwise. -/
theorem C4_status_iff :
    ∀ ops : List Op, (∀ op ∈ ops, goodOp op = true) →
      ∀ d ∈ (run ops).debts,
        (d.status = DebtStatus.rembourse ↔ d.amount ≤ d.amount_paid)
        ∧ (d.status = DebtStatus.actif ↔ d.amount_paid < d.amount) := by
  intro ops hgood d hd
  exact statusMatches_foldl ops initDB ledgerInv_initDB
    (fun d hd => absurd hd (by simp [initDB])) hgood d hd

/-- C4 witness: the repayment that brings `amountPaid` up to the
principal leaves the obligation Settled. -/
theorem C4_witness :
    dC4 ∈ (run opsC4w).debts ∧ dC4.status = DebtStatus.rembourse :=
  ⟨by decide,
   ((C4_status_iff opsC4w (by decide) dC4 (by decide)).1).mpr (by decide)⟩

end Kamela
